import Mathlib

/-!
Shallow embedding of the care-recommendation rule engine of src/app.py
(PlantCareAI).  The embedding covers:

* the species reference table PLANT_DB and its defaulted lookup
  (app.py lines 34-85 and 300-306);
* the elapsed-days helper days_since (lines 97-111), where a raised
  Python exception is modelled as Except.error;
* the per-plant badge / recommendation block (lines 309-356), packaged
  here as the function evaluate;
* the optional text-polishing wrapper llm_polish (lines 131-153), with
  the external OpenAI call modelled as an oracle parameter.

Conventions: calendar dates are ordinal day numbers (Int), so the Python
subtraction (today - dt).days is plain Int subtraction.  Numeric
observations are rationals; each distinct recommendation string of the
source is one constructor of the Rec type, carrying the values that the
source interpolates into the string.
-/

/-- Care envelope of one species: exactly the fields that the
recommendation logic reads from a PLANT_DB entry (app.py lines 301-306).
The type and soil entries of the dictionary are display-only and never
reach the decision logic. -/
structure SpeciesProfile where
  water_interval_days : Int
  sunlight_hours_min : ℚ
  sunlight_hours_max : ℚ
  temp_c_min : ℚ
  temp_c_max : ℚ
  fertilizer : String
deriving DecidableEq

/-- The built-in plant encyclopedia, app.py lines 34-85. -/
def PLANT_DB : List (String × SpeciesProfile) :=
  [ ("Tomato", ⟨2, 6, 8, 18, 27, "Balanced NPK every 2 weeks during growing season"⟩),
    ("Rose", ⟨3, 5, 8, 10, 25, "High-P potassium fertilizer once a month during bloom"⟩),
    ("Snake Plant", ⟨21, 1, 4, 15, 30, "Very light during spring"⟩),
    ("Aloe Vera", ⟨21, 3, 6, 15, 30, "Light succulent fertilizer in spring"⟩),
    ("Basil", ⟨3, 4, 8, 18, 30, "Every 3-4 weeks with balanced fertilizer"⟩) ]

/-- Field defaults applied when the species is absent from PLANT_DB:
db.get("water_interval_days", 3), db.get("sunlight_hours_min", 3),
db.get("sunlight_hours_max", 8), db.get("temp_c_min", 10),
db.get("temp_c_max", 30), db.get("fertilizer", "Follow package
instructions") on the empty dictionary (app.py lines 300-306). -/
def defaultProfile : SpeciesProfile :=
  ⟨3, 3, 8, 10, 30, "Follow package instructions"⟩

/-- Species lookup, app.py lines 300-306: PLANT_DB.get(species, \x7b\x7d)
followed by per-field .get defaults.  Every PLANT_DB entry carries every
field, so this equals: the entry when present, the default profile
otherwise. -/
def lookup (species : String) : SpeciesProfile :=
  match PLANT_DB.lookup species with
  | some p => p
  | none => defaultProfile

/-- State of a stored date cell as days_since (app.py lines 97-111)
distinguishes it: missing covers NaN, None and the empty string (the
pd.isna / equality test on line 99); validDate is any value that
strptime or the pd.to_datetime fallback parses, carried as an ordinal
day number; invalid is a string that both parsers reject, on which
pd.to_datetime on line 106 raises. -/
inductive DateField
| missing
| validDate (ord : Int)
| invalid
deriving DecidableEq

/-- days_since, app.py lines 97-111, with the evaluation date passed
explicitly in place of datetime.today().date().  A raised exception is
Except.error (); otherwise the result is the Python return value
(None or the whole-day difference). -/
def days_since (today : Int) : DateField → Except Unit (Option Int)
| .missing => .ok none
| .validDate d => .ok (some (today - d))
| .invalid => .error ()

/-- A stored numeric observation cell as the extraction code sees it:
absent (row.get returns None), the empty string, or a number. -/
inductive ObsNum
| absent
| emptyStr
| num (q : ℚ)
deriving DecidableEq

/-- The coercion float(x or 0) of app.py lines 295-297: Python-falsy
values (None, "", 0) give 0.0, any other number passes through
(for x = 0 the or picks the literal 0, the same value). -/
def numOrZero : ObsNum → ℚ
| .absent => 0
| .emptyStr => 0
| .num q => q

/-- A value is Python-falsy in the sense of the `or 0` coercion. -/
def pyFalsy (x : ObsNum) : Prop :=
  x = ObsNum.absent ∨ x = ObsNum.emptyStr ∨ x = ObsNum.num 0

instance (x : ObsNum) : Decidable (pyFalsy x) := by
  unfold pyFalsy; infer_instance

/-- Badge categories, one per distinct badge string of app.py
lines 316-350. -/
inductive Badge
| NeedsWater
| Hydrated
| Fertilize
| LowLight
| TooMuchSun
| TooCold
| TooHot
deriving DecidableEq

/-- Recommendation strings of app.py lines 313-356, one constructor per
distinct message, carrying the values the f-string interpolates. -/
inductive Rec
| waterUnknown
| needsWater (d : Int) (interval : Int)
| wateredRecently
| hydrationOk
| fertUnknown
| fertilizeNow (d : Int) (advice : String)
| fertOk
| lowLight (cur lo : ℚ)
| tooMuchSun (cur hi : ℚ)
| sunOk
| tooCold (cur lo : ℚ)
| tooHot (cur hi : ℚ)
| lowHumidity
| highHumidity
deriving DecidableEq

/-- Dimension index of a recommendation: 0 water, 1 fertilizer,
2 sunlight, 3 temperature, 4 humidity. -/
def recDim : Rec → Nat
| .waterUnknown => 0
| .needsWater _ _ => 0
| .wateredRecently => 0
| .hydrationOk => 0
| .fertUnknown => 1
| .fertilizeNow _ _ => 1
| .fertOk => 1
| .lowLight _ _ => 2
| .tooMuchSun _ _ => 2
| .sunOk => 2
| .tooCold _ _ => 3
| .tooHot _ _ => 3
| .lowHumidity => 4
| .highHumidity => 4

/-- Output of one evaluation: the badges and recommendations lists in
the order the loop of app.py lines 309-356 appends them. -/
structure EvaluationResult where
  badges : List Badge
  recs : List Rec
deriving DecidableEq

/-- Water checks, app.py lines 312-323.  interval // 2 is Python floor
division, Int.fdiv here. -/
def waterCheck (interval : Int) (days_water : Option Int) :
    List Badge × List Rec :=
  match days_water with
  | none => ([], [Rec.waterUnknown])
  | some d =>
    if d ≥ interval + 1 then
      ([Badge.NeedsWater], [Rec.needsWater d interval])
    else if d ≤ max 1 (Int.fdiv interval 2) then
      ([], [Rec.wateredRecently])
    else
      ([Badge.Hydrated], [Rec.hydrationOk])

/-- Fertilizer checks, app.py lines 326-333; the threshold 14 is fixed,
independent of the profile. -/
def fertCheck (advice : String) (days_fert : Option Int) :
    List Badge × List Rec :=
  match days_fert with
  | none => ([], [Rec.fertUnknown])
  | some d =>
    if d ≥ 14 then
      ([Badge.Fertilize], [Rec.fertilizeNow d advice])
    else
      ([], [Rec.fertOk])

/-- Sunlight checks, app.py lines 336-343: strict comparisons, so both
bounds classify as within range, and the in-range branch still emits a
message. -/
def sunCheck (lo hi cur : ℚ) : List Badge × List Rec :=
  if cur < lo then
    ([Badge.LowLight], [Rec.lowLight cur lo])
  else if cur > hi then
    ([Badge.TooMuchSun], [Rec.tooMuchSun cur hi])
  else
    ([], [Rec.sunOk])

/-- Temperature checks, app.py lines 346-351: no message at all when the
temperature is within range. -/
def tempCheck (lo hi cur : ℚ) : List Badge × List Rec :=
  if cur < lo then
    ([Badge.TooCold], [Rec.tooCold cur lo])
  else if cur > hi then
    ([Badge.TooHot], [Rec.tooHot cur hi])
  else
    ([], [])

/-- Humidity checks, app.py lines 353-356: two independent ifs, no
badge. -/
def humidityCheck (h : ℚ) : List Rec :=
  (if h < 30 then [Rec.lowHumidity] else []) ++
  (if h > 85 then [Rec.highHumidity] else [])

/-- The five-dimension evaluation core: the badge and recommendation
appends of app.py lines 309-356, expressed as per-dimension blocks
concatenated in the source order water, fertilizer, sunlight,
temperature, humidity. -/
def evaluateWith (p : SpeciesProfile) (days_water days_fert : Option Int)
    (current_sun current_temp humidity : ℚ) : EvaluationResult :=
  ⟨(waterCheck p.water_interval_days days_water).1 ++
     (fertCheck p.fertilizer days_fert).1 ++
     (sunCheck p.sunlight_hours_min p.sunlight_hours_max current_sun).1 ++
     (tempCheck p.temp_c_min p.temp_c_max current_temp).1,
   (waterCheck p.water_interval_days days_water).2 ++
     (fertCheck p.fertilizer days_fert).2 ++
     (sunCheck p.sunlight_hours_min p.sunlight_hours_max current_sun).2 ++
     (tempCheck p.temp_c_min p.temp_c_max current_temp).2 ++
     humidityCheck humidity⟩

/-- One stored plant row as the evaluation loop reads it (the columns of
plants_df, app.py line 156).  id, name, notes, image_path and added_on
are carried to show that the evaluation never reads them. -/
structure PlantObservation where
  id : Int
  name : String
  species : String
  last_watered : DateField
  last_fertilized : DateField
  sunlight_hours : ObsNum
  temp_c : ObsNum
  humidity_percent : ObsNum
  notes : String
  image_path : String
  added_on : String
deriving DecidableEq

/-- The full per-plant evaluation, app.py lines 292-356: elapsed days
for watering and fertilizing, the float(x or 0) coercions, the species
lookup, then the five-dimension checks.  An exception escaping
days_since propagates as Except.error. -/
def evaluate (row : PlantObservation) (today : Int) :
    Except Unit EvaluationResult := do
  let days_water ← days_since today row.last_watered
  let days_fert ← days_since today row.last_fertilized
  let current_sun := numOrZero row.sunlight_hours
  let current_temp := numOrZero row.temp_c
  let humidity := numOrZero row.humidity_percent
  let p := lookup row.species
  pure (evaluateWith p days_water days_fert current_sun current_temp humidity)

/-- Environment of llm_polish: whether the openai import succeeded
(OPENAI_AVAILABLE, app.py lines 15-19), and the body of the try block as
an oracle from the input text to either the polished text or a raised
exception (missing secret, API failure, anything the except clause on
line 151 catches). -/
structure PolishEnv where
  openai_available : Bool
  call : String → Except Unit String

/-- llm_polish, app.py lines 131-153: identity when openai is
unavailable, and the original text whenever the try block raises. -/
def llm_polish (env : PolishEnv) (text : String) : String :=
  if env.openai_available = false then text
  else
    match env.call text with
    | .ok polished => polished
    | .error _ => text

/-- Example row: a Snake Plant watered and fertilized 5 days before the
evaluation date 1005, with 2 h sun, 20 °C, 50 % humidity. -/
def snakeObs : PlantObservation :=
  ⟨1, "Sansevieria", "Snake Plant", DateField.validDate 1000,
   DateField.validDate 1000, ObsNum.num 2, ObsNum.num 20, ObsNum.num 50,
   "", "", ""⟩

/-- Example row: a Tomato watered and fertilized 5 days before the
evaluation date 1005, with 6 h sun, 25 °C, 50 % humidity. -/
def tomatoObs : PlantObservation :=
  ⟨2, "Balcony Tomato", "Tomato", DateField.validDate 1000,
   DateField.validDate 1000, ObsNum.num 6, ObsNum.num 25, ObsNum.num 50,
   "", "", ""⟩

/-- Example row whose stored last_watered cell is a string neither date
parser accepts. -/
def badDateObs : PlantObservation :=
  ⟨3, "Mystery", "Tomato", DateField.invalid, DateField.missing,
   ObsNum.num 6, ObsNum.num 25, ObsNum.num 50, "", "", ""⟩

instance : DecidableEq (Except Unit EvaluationResult) := fun a b =>
  match a, b with
  | .ok x, .ok y =>
    if h : x = y then isTrue (by rw [h]) else isFalse (by simp [h])
  | .error x, .error y => isTrue (by rw [Unit.ext x y])
  | .ok _, .error _ => isFalse (by simp)
  | .error _, .ok _ => isFalse (by simp)

/-- Example row: an unknown species with no recorded dates, negative
sunlight hours and sub-zero temperature. -/
def negSunObs : PlantObservation :=
  ⟨4, "Odd one", "Ficus", DateField.missing, DateField.missing,
   ObsNum.num (-3), ObsNum.num (-5), ObsNum.num 20, "", "", ""⟩

/-- Example row: a Snake Plant whose recorded watering date lies in the
future of the evaluation date 10. -/
def futureObs : PlantObservation :=
  ⟨5, "Time traveller", "Snake Plant", DateField.validDate 20,
   DateField.missing, ObsNum.num 2, ObsNum.num 20, ObsNum.num 50,
   "", "", ""⟩

/-- Example row pair for the purity claim: identical on every field the
evaluation reads, different id, name, notes, image path and added_on. -/
def roseObsA : PlantObservation :=
  ⟨10, "Rosa", "Rose", DateField.validDate 990, DateField.missing,
   ObsNum.num 5, ObsNum.num 18, ObsNum.num 40, "droopy leaves",
   "images/rosa.png", "2024-01-01"⟩

/-- Companion of roseObsA, agreeing with it exactly on species, dates
and the three numeric observations. -/
def roseObsB : PlantObservation :=
  ⟨11, "Other rose", "Rose", DateField.validDate 990, DateField.missing,
   ObsNum.num 5, ObsNum.num 18, ObsNum.num 40, "", "", "2024-02-02"⟩

/-- Polishing environment in which openai imported but every call
raises (for example, the OPENAI_API_KEY secret is missing). -/
def envDown : PolishEnv :=
  ⟨true, fun _ => Except.error ()⟩

/-! ## Helper lemmas about the per-dimension blocks -/

lemma waterCheck_badge {K : Int} {dw : Option Int} {b : Badge}
    (hb : b ∈ (waterCheck K dw).1) :
    b = Badge.NeedsWater ∨ b = Badge.Hydrated := by
  rcases dw with _ | d
  · simp [waterCheck] at hb
  · simp only [waterCheck] at hb
    split_ifs at hb <;> simp_all

lemma fertCheck_badge {a : String} {df : Option Int} {b : Badge}
    (hb : b ∈ (fertCheck a df).1) : b = Badge.Fertilize := by
  rcases df with _ | d
  · simp [fertCheck] at hb
  · simp only [fertCheck] at hb
    split_ifs at hb <;> simp_all

lemma sunCheck_badge {lo hi cur : ℚ} {b : Badge}
    (hb : b ∈ (sunCheck lo hi cur).1) :
    b = Badge.LowLight ∨ b = Badge.TooMuchSun := by
  simp only [sunCheck] at hb
  split_ifs at hb <;> simp_all

lemma tempCheck_badge {lo hi cur : ℚ} {b : Badge}
    (hb : b ∈ (tempCheck lo hi cur).1) :
    b = Badge.TooCold ∨ b = Badge.TooHot := by
  simp only [tempCheck] at hb
  split_ifs at hb <;> simp_all

lemma waterCheck_needs {K d : Int} (h : d ≥ K + 1) :
    waterCheck K (some d) = ([Badge.NeedsWater], [Rec.needsWater d K]) := by
  simp [waterCheck, h]

lemma waterCheck_recent {K d : Int} (h1 : ¬ d ≥ K + 1)
    (h2 : d ≤ max 1 (Int.fdiv K 2)) :
    waterCheck K (some d) = ([], [Rec.wateredRecently]) := by
  simp [waterCheck, h1, h2]

lemma waterCheck_hydrated {K d : Int} (h1 : ¬ d ≥ K + 1)
    (h2 : ¬ d ≤ max 1 (Int.fdiv K 2)) :
    waterCheck K (some d) = ([Badge.Hydrated], [Rec.hydrationOk]) := by
  simp [waterCheck, h1, h2]

lemma sunCheck_inRange {lo hi cur : ℚ} (h1 : lo ≤ cur) (h2 : cur ≤ hi) :
    sunCheck lo hi cur = ([], [Rec.sunOk]) := by
  simp [sunCheck, not_lt.mpr h1, not_lt.mpr h2]

/-! ## Claim theorems -/

/-- C3.  Species lookup is total with the documented default: the
default profile has water interval 3 days, sunlight range 3 to 8 hours
and temperature range 10 to 30 degrees C; any name absent from PLANT_DB
yields the default profile, and any name present yields that entry. -/
theorem lookup_total_with_default (s : String) :
    defaultProfile.water_interval_days = 3 ∧
    defaultProfile.sunlight_hours_min = 3 ∧
    defaultProfile.sunlight_hours_max = 8 ∧
    defaultProfile.temp_c_min = 10 ∧
    defaultProfile.temp_c_max = 30 ∧
    (PLANT_DB.lookup s = none → lookup s = defaultProfile) ∧
    (∀ p, PLANT_DB.lookup s = some p → lookup s = p) := by
  refine ⟨rfl, rfl, rfl, rfl, rfl, ?_, ?_⟩
  · intro h
    simp [lookup, h]
  · intro p h
    simp [lookup, h]

/-- Witness for C3: Ficus is not in the table, and looking it up gives
the default profile. -/
theorem lookup_total_with_default_witness :
    PLANT_DB.lookup "Ficus" = none ∧ lookup "Ficus" = defaultProfile :=
  ⟨by decide, (lookup_total_with_default "Ficus").2.2.2.2.2.1 (by decide)⟩

/-- C6.  days_since maps an absent date to None for any evaluation
date; an event on the evaluation date itself gives 0; a recorded date
gives the whole-day difference today - eventDate, negative when the
event lies in the future; and such a negative value still flows through
the full evaluation without a fault. -/
theorem days_since_contract :
    (∀ today : Int, days_since today DateField.missing = Except.ok none) ∧
    (∀ d : Int, days_since d (DateField.validDate d) = Except.ok (some 0)) ∧
    (∀ today w : Int,
      days_since today (DateField.validDate w) =
        Except.ok (some (today - w)) ∧ (today < w → today - w < 0)) ∧
    (∀ (row : PlantObservation) (today w : Int),
      row.last_watered = DateField.validDate w →
      row.last_fertilized ≠ DateField.invalid →
      ∃ r, evaluate row today = Except.ok r) := by
  refine ⟨fun _ => rfl, ?_, ?_, ?_⟩
  · intro d
    simp [days_since]
  · intro today w
    exact ⟨rfl, fun h => by omega⟩
  · intro row today w hw hf
    rcases row with ⟨i, nm, sp, lw, lf, sh, tc, hp, nt, ip, ao⟩
    simp only at hw hf
    subst hw
    rcases lf with _ | v | _
    · exact ⟨_, rfl⟩
    · exact ⟨_, rfl⟩
    · exact absurd rfl hf

/-- Witness for C6: a watering date 10 days in the future of the
evaluation date is still evaluated to a result. -/
theorem days_since_contract_witness :
    ∃ r, evaluate futureObs 10 = Except.ok r :=
  days_since_contract.2.2.2 futureObs 10 20 rfl (by decide)

/-- C9.  llm_polish returns the input text unchanged whenever the
openai import is unavailable or the polishing call fails, and (being a
total function into String) never propagates a failure. -/
theorem llm_polish_never_breaks (env : PolishEnv) (text : String) :
    (env.openai_available = false → llm_polish env text = text) ∧
    (env.call text = Except.error () → llm_polish env text = text) := by
  constructor
  · intro h
    simp [llm_polish, h]
  · intro h
    unfold llm_polish
    rw [h]
    split <;> rfl

/-- Witness for C9: with openai importable but every call failing, the
text comes back unchanged. -/
theorem llm_polish_never_breaks_witness :
    llm_polish envDown "Water the tomato" = "Water the tomato" :=
  (llm_polish_never_breaks envDown "Water the tomato").2 rfl

/-- C10.  The float(x or 0) extraction coerces Python-falsy cells
(absent, empty string, zero) to 0, so an evaluation whose
sunlight-hours, temperature or humidity cell is falsy behaves exactly
as if that cell held the number 0. -/
theorem falsy_observation_is_zero :
    (∀ x : ObsNum, pyFalsy x → numOrZero x = 0) ∧
    (∀ (i : Int) (nm sp : String) (lw lf : DateField) (sh tc hp : ObsNum)
       (nt ip ao : String) (today : Int), pyFalsy sh →
      evaluate ⟨i, nm, sp, lw, lf, sh, tc, hp, nt, ip, ao⟩ today =
        evaluate ⟨i, nm, sp, lw, lf, ObsNum.num 0, tc, hp, nt, ip, ao⟩ today) ∧
    (∀ (i : Int) (nm sp : String) (lw lf : DateField) (sh tc hp : ObsNum)
       (nt ip ao : String) (today : Int), pyFalsy tc →
      evaluate ⟨i, nm, sp, lw, lf, sh, tc, hp, nt, ip, ao⟩ today =
        evaluate ⟨i, nm, sp, lw, lf, sh, ObsNum.num 0, hp, nt, ip, ao⟩ today) ∧
    (∀ (i : Int) (nm sp : String) (lw lf : DateField) (sh tc hp : ObsNum)
       (nt ip ao : String) (today : Int), pyFalsy hp →
      evaluate ⟨i, nm, sp, lw, lf, sh, tc, hp, nt, ip, ao⟩ today =
        evaluate ⟨i, nm, sp, lw, lf, sh, tc, ObsNum.num 0, nt, ip, ao⟩ today) := by
  refine ⟨?_, ?_, ?_, ?_⟩
  · intro x hx
    rcases hx with h | h | h <;> subst h <;> rfl
  · intro i nm sp lw lf sh tc hp nt ip ao today hx
    rcases hx with h | h | h <;> subst h <;> rfl
  · intro i nm sp lw lf sh tc hp nt ip ao today hx
    rcases hx with h | h | h <;> subst h <;> rfl
  · intro i nm sp lw lf sh tc hp nt ip ao today hx
    rcases hx with h | h | h <;> subst h <;> rfl

/-- Witness for C10: an absent sunlight cell evaluates exactly like a
recorded 0 hours of sun. -/
theorem falsy_observation_is_zero_witness :
    evaluate ⟨0, "p", "Ficus", DateField.missing, DateField.missing,
        ObsNum.absent, ObsNum.num 20, ObsNum.num 50, "", "", ""⟩ 100 =
      evaluate ⟨0, "p", "Ficus", DateField.missing, DateField.missing,
        ObsNum.num 0, ObsNum.num 20, ObsNum.num 50, "", "", ""⟩ 100 :=
  falsy_observation_is_zero.2.1 0 "p" "Ficus" DateField.missing
    DateField.missing ObsNum.absent (ObsNum.num 20) (ObsNum.num 50)
    "" "" "" 100 (Or.inl rfl)

/-- C1.  Water dimension: with a known elapsed-days value d and water
interval K, d at least K + 1 yields the NeedsWater badge and the
days-since-watering message; otherwise d at most max(1, K floor-div 2)
yields neither water badge and the over-watering caution; otherwise the
Hydrated badge and the hydration-looks-fine message.  In particular a
Snake Plant (interval 21) watered 5 days ago gets only the caution, no
badge at all. -/
theorem water_dimension_branches (p : SpeciesProfile) (d : Int)
    (df : Option Int) (sun temp hum : ℚ) :
    (d ≥ p.water_interval_days + 1 →
      Badge.NeedsWater ∈ (evaluateWith p (some d) df sun temp hum).badges ∧
      Rec.needsWater d p.water_interval_days ∈
        (evaluateWith p (some d) df sun temp hum).recs) ∧
    (¬ d ≥ p.water_interval_days + 1 →
      d ≤ max 1 (Int.fdiv p.water_interval_days 2) →
      Badge.NeedsWater ∉ (evaluateWith p (some d) df sun temp hum).badges ∧
      Badge.Hydrated ∉ (evaluateWith p (some d) df sun temp hum).badges ∧
      Rec.wateredRecently ∈ (evaluateWith p (some d) df sun temp hum).recs) ∧
    (¬ d ≥ p.water_interval_days + 1 →
      ¬ d ≤ max 1 (Int.fdiv p.water_interval_days 2) →
      Badge.Hydrated ∈ (evaluateWith p (some d) df sun temp hum).badges ∧
      Rec.hydrationOk ∈ (evaluateWith p (some d) df sun temp hum).recs) ∧
    evaluate snakeObs 1005 =
      Except.ok ⟨[], [Rec.wateredRecently, Rec.fertOk, Rec.sunOk]⟩ := by
  refine ⟨?_, ?_, ?_, by decide⟩
  · intro h
    constructor
    · simp [evaluateWith, waterCheck_needs h]
    · simp [evaluateWith, waterCheck_needs h]
  · intro h1 h2
    refine ⟨?_, ?_, ?_⟩
    · intro hmem
      simp [evaluateWith, waterCheck_recent h1 h2, List.mem_append] at hmem
      rcases hmem with h | h | h
      · exact absurd (fertCheck_badge h) (by decide)
      · rcases sunCheck_badge h with he | he <;> exact absurd he (by decide)
      · rcases tempCheck_badge h with he | he <;> exact absurd he (by decide)
    · intro hmem
      simp [evaluateWith, waterCheck_recent h1 h2, List.mem_append] at hmem
      rcases hmem with h | h | h
      · exact absurd (fertCheck_badge h) (by decide)
      · rcases sunCheck_badge h with he | he <;> exact absurd he (by decide)
      · rcases tempCheck_badge h with he | he <;> exact absurd he (by decide)
    · simp [evaluateWith, waterCheck_recent h1 h2]
  · intro h1 h2
    constructor
    · simp [evaluateWith, waterCheck_hydrated h1 h2]
    · simp [evaluateWith, waterCheck_hydrated h1 h2]

/-- Witness for C1: a Tomato (interval 2) watered 5 days ago is in the
needs-water branch. -/
theorem water_dimension_branches_witness :
    Badge.NeedsWater ∈
      (evaluateWith (lookup "Tomato") (some 5) (some 5) 6 25 50).badges ∧
    Rec.needsWater 5 (lookup "Tomato").water_interval_days ∈
      (evaluateWith (lookup "Tomato") (some 5) (some 5) 6 25 50).recs :=
  (water_dimension_branches (lookup "Tomato") 5 (some 5) 6 25 50).1
    (by decide)

/-- C5.  Sunlight bounds are inclusive: for a profile whose bounds
satisfy the data-model invariant min at most max, strictly below the
minimum emits the LowLight badge, strictly above the maximum emits the
TooMuchSun badge, and a value equal to either bound or between them
emits no sunlight badge and the within-range message. -/
theorem sunlight_inclusive_bounds (p : SpeciesProfile)
    (dw df : Option Int) (sun temp hum : ℚ)
    (hp : p.sunlight_hours_min ≤ p.sunlight_hours_max) :
    (sun < p.sunlight_hours_min →
      Badge.LowLight ∈ (evaluateWith p dw df sun temp hum).badges) ∧
    (sun > p.sunlight_hours_max →
      Badge.TooMuchSun ∈ (evaluateWith p dw df sun temp hum).badges) ∧
    (p.sunlight_hours_min ≤ sun → sun ≤ p.sunlight_hours_max →
      Badge.LowLight ∉ (evaluateWith p dw df sun temp hum).badges ∧
      Badge.TooMuchSun ∉ (evaluateWith p dw df sun temp hum).badges ∧
      Rec.sunOk ∈ (evaluateWith p dw df sun temp hum).recs) := by
  refine ⟨?_, ?_, ?_⟩
  · intro h
    simp [evaluateWith, sunCheck, h]
  · intro h
    have hnlt : ¬ sun < p.sunlight_hours_min :=
      not_lt.mpr (le_trans hp (le_of_lt h))
    simp [evaluateWith, sunCheck, hnlt, h]
  · intro h1 h2
    refine ⟨?_, ?_, ?_⟩
    · intro hmem
      simp [evaluateWith, sunCheck_inRange h1 h2, List.mem_append] at hmem
      rcases hmem with h | h | h
      · rcases waterCheck_badge h with he | he <;> exact absurd he (by decide)
      · exact absurd (fertCheck_badge h) (by decide)
      · rcases tempCheck_badge h with he | he <;> exact absurd he (by decide)
    · intro hmem
      simp [evaluateWith, sunCheck_inRange h1 h2, List.mem_append] at hmem
      rcases hmem with h | h | h
      · rcases waterCheck_badge h with he | he <;> exact absurd he (by decide)
      · exact absurd (fertCheck_badge h) (by decide)
      · rcases tempCheck_badge h with he | he <;> exact absurd he (by decide)
    · simp [evaluateWith, sunCheck_inRange h1 h2]

/-- Witness for C5: sunlight exactly at the Tomato minimum of 6 hours
is within range. -/
theorem sunlight_inclusive_bounds_witness :
    Badge.LowLight ∉
      (evaluateWith (lookup "Tomato") (some 1) (some 1) 6 25 50).badges ∧
    Badge.TooMuchSun ∉
      (evaluateWith (lookup "Tomato") (some 1) (some 1) 6 25 50).badges ∧
    Rec.sunOk ∈ (evaluateWith (lookup "Tomato") (some 1) (some 1) 6 25 50).recs :=
  (sunlight_inclusive_bounds (lookup "Tomato") (some 1) (some 1) 6 25 50
    (by decide)).2.2 (by decide) (by decide)

/-- C7.  Fertilizer dimension: an unknown last-fertilized date emits
the track-history message and no Fertilize badge; for every profile the
fixed threshold is 14 days, at or past which the Fertilize badge and a
message carrying the profile's fertilizer advice are emitted; below it
the schedule-OK message is emitted. -/
theorem fertilizer_fixed_threshold (p : SpeciesProfile) (dw : Option Int)
    (sun temp hum : ℚ) :
    (Rec.fertUnknown ∈ (evaluateWith p dw none sun temp hum).recs ∧
      Badge.Fertilize ∉ (evaluateWith p dw none sun temp hum).badges) ∧
    (∀ d : Int, d ≥ 14 →
      Badge.Fertilize ∈ (evaluateWith p dw (some d) sun temp hum).badges ∧
      Rec.fertilizeNow d p.fertilizer ∈
        (evaluateWith p dw (some d) sun temp hum).recs) ∧
    (∀ d : Int, ¬ d ≥ 14 →
      Rec.fertOk ∈ (evaluateWith p dw (some d) sun temp hum).recs ∧
      Badge.Fertilize ∉ (evaluateWith p dw (some d) sun temp hum).badges) := by
  refine ⟨⟨?_, ?_⟩, ?_, ?_⟩
  · simp [evaluateWith, fertCheck]
  · intro hmem
    simp [evaluateWith, fertCheck, List.mem_append] at hmem
    rcases hmem with h | h | h
    · rcases waterCheck_badge h with he | he <;> exact absurd he (by decide)
    · rcases sunCheck_badge h with he | he <;> exact absurd he (by decide)
    · rcases tempCheck_badge h with he | he <;> exact absurd he (by decide)
  · intro d hd
    constructor
    · simp [evaluateWith, fertCheck, hd]
    · simp [evaluateWith, fertCheck, hd]
  · intro d hd
    constructor
    · simp [evaluateWith, fertCheck, hd]
    · intro hmem
      simp [evaluateWith, fertCheck, hd, List.mem_append] at hmem
      rcases hmem with h | h | h
      · rcases waterCheck_badge h with he | he <;> exact absurd he (by decide)
      · rcases sunCheck_badge h with he | he <;> exact absurd he (by decide)
      · rcases tempCheck_badge h with he | he <;> exact absurd he (by decide)

/-- Witness for C7: a Snake Plant fertilized 14 days ago gets the
Fertilize badge with the species advice. -/
theorem fertilizer_fixed_threshold_witness :
    Badge.Fertilize ∈
      (evaluateWith (lookup "Snake Plant") (some 1) (some 14) 2 20 50).badges ∧
    Rec.fertilizeNow 14 (lookup "Snake Plant").fertilizer ∈
      (evaluateWith (lookup "Snake Plant") (some 1) (some 14) 2 20 50).recs :=
  (fertilizer_fixed_threshold (lookup "Snake Plant") (some 1) 2 20 50).2.1 14
    (by decide)

/-! ## Dimension tags of the recommendation blocks (for the ordering claim) -/

lemma waterCheck_recDim {K : Int} {dw : Option Int} :
    ∀ x ∈ (waterCheck K dw).2, recDim x = 0 := by
  rcases dw with _ | d
  · simp [waterCheck, recDim]
  · simp only [waterCheck]
    split_ifs <;> simp [recDim]

lemma fertCheck_recDim {a : String} {df : Option Int} :
    ∀ x ∈ (fertCheck a df).2, recDim x = 1 := by
  rcases df with _ | d
  · simp [fertCheck, recDim]
  · simp only [fertCheck]
    split_ifs <;> simp [recDim]

lemma sunCheck_recDim {lo hi cur : ℚ} :
    ∀ x ∈ (sunCheck lo hi cur).2, recDim x = 2 := by
  simp only [sunCheck]
  split_ifs <;> simp [recDim]

lemma tempCheck_recDim {lo hi cur : ℚ} :
    ∀ x ∈ (tempCheck lo hi cur).2, recDim x = 3 := by
  simp only [tempCheck]
  split_ifs <;> simp [recDim]

lemma humidityCheck_recDim {h : ℚ} :
    ∀ x ∈ humidityCheck h, recDim x = 4 := by
  simp only [humidityCheck]
  split_ifs <;> simp [recDim]

lemma waterCheck_ne_nil {K : Int} {dw : Option Int} :
    (waterCheck K dw).2 ≠ [] := by
  rcases dw with _ | d
  · simp [waterCheck]
  · simp only [waterCheck]
    split_ifs <;> simp

lemma fertCheck_ne_nil {a : String} {df : Option Int} :
    (fertCheck a df).2 ≠ [] := by
  rcases df with _ | d
  · simp [fertCheck]
  · simp only [fertCheck]
    split_ifs <;> simp

lemma sunCheck_ne_nil {lo hi cur : ℚ} : (sunCheck lo hi cur).2 ≠ [] := by
  simp only [sunCheck]
  split_ifs <;> simp

/-- C2 counterexample: a stored last-watered string that neither date
parser accepts makes the evaluation raise (modelled as Except.error)
instead of degrading to the unknown state, refuting totality over
unparseable dates. -/
theorem evaluate_raises_on_unparseable_date :
    evaluate badDateObs 1005 = Except.error () := by decide

/-- C2 amended.  Evaluation completes and returns a result for every
input whose stored date cells are absent or parseable — including
out-of-range numerics such as negative sunlight hours — and an absent
date degrades to the unknown informational state; only an unparseable
date string makes it raise. -/
theorem evaluate_total_on_wellformed_dates (row : PlantObservation)
    (today : Int) (hw : row.last_watered ≠ DateField.invalid)
    (hf : row.last_fertilized ≠ DateField.invalid) :
    ∃ r, evaluate row today = Except.ok r ∧
      (row.last_watered = DateField.missing → Rec.waterUnknown ∈ r.recs) ∧
      (row.last_fertilized = DateField.missing → Rec.fertUnknown ∈ r.recs) := by
  rcases row with ⟨i, nm, sp, lw, lf, sh, tc, hp, nt, ip, ao⟩
  simp only at hw hf
  rcases lw with _ | w | _
  · rcases lf with _ | v | _
    · refine ⟨_, rfl, fun _ => ?_, fun _ => ?_⟩
      · simp [evaluateWith, waterCheck]
      · simp [evaluateWith, fertCheck]
    · refine ⟨_, rfl, fun _ => ?_, fun hc => ?_⟩
      · simp [evaluateWith, waterCheck]
      · exact absurd hc (by simp)
    · exact absurd rfl hf
  · rcases lf with _ | v | _
    · refine ⟨_, rfl, fun hc => ?_, fun _ => ?_⟩
      · exact absurd hc (by simp)
      · simp [evaluateWith, fertCheck]
    · refine ⟨_, rfl, fun hc => ?_, fun hc => ?_⟩
      · exact absurd hc (by simp)
      · exact absurd hc (by simp)
    · exact absurd rfl hf
  · exact absurd rfl hw

/-- Witness for the amended C2: an unknown species with no recorded
dates, negative sunlight and sub-zero temperature still evaluates to a
result, with the unknown-date messages present. -/
theorem evaluate_total_on_wellformed_dates_witness :
    ∃ r, evaluate negSunObs 77 = Except.ok r ∧
      (negSunObs.last_watered = DateField.missing →
        Rec.waterUnknown ∈ r.recs) ∧
      (negSunObs.last_fertilized = DateField.missing →
        Rec.fertUnknown ∈ r.recs) :=
  evaluate_total_on_wellformed_dates negSunObs 77 (by decide) (by decide)

/-- C4.  The evaluation of a stored row is a pure function of the
species, the two date cells, the three numeric observation cells and
the evaluation date: two rows that agree on those — whatever their id,
name, notes, image path and added_on — evaluate identically on the same
date. -/
theorem evaluate_pure_in_inputs (a b : PlantObservation) (today : Int)
    (h1 : a.species = b.species) (h2 : a.last_watered = b.last_watered)
    (h3 : a.last_fertilized = b.last_fertilized)
    (h4 : a.sunlight_hours = b.sunlight_hours)
    (h5 : a.temp_c = b.temp_c)
    (h6 : a.humidity_percent = b.humidity_percent) :
    evaluate a today = evaluate b today := by
  simp only [evaluate, h1, h2, h3, h4, h5, h6]

/-- Witness for C4: two Rose rows differing only in id, name, notes,
image path and added_on evaluate identically. -/
theorem evaluate_pure_in_inputs_witness :
    evaluate roseObsA 1000 = evaluate roseObsB 1000 :=
  evaluate_pure_in_inputs roseObsA roseObsB 1000 rfl rfl rfl rfl rfl rfl

/-- C8 counterexample: a Tomato evaluation whose temperature is within
range produces no temperature recommendation at all, refuting the claim
that every evaluated dimension contributes at least one advisory
string. -/
theorem recs_not_one_per_dimension :
    evaluate tomatoObs 1005 =
      Except.ok ⟨[Badge.NeedsWater],
        [Rec.needsWater 5 2, Rec.fertOk, Rec.sunOk]⟩ ∧
    ∀ x ∈ [Rec.needsWater 5 2, Rec.fertOk, Rec.sunOk], recDim x ≠ 3 :=
  ⟨by decide, by decide⟩

/-- C8 amended.  The recommendations list is the concatenation of five
per-dimension blocks in the fixed order water, fertilizer, sunlight,
temperature, humidity; the water, fertilizer and sunlight blocks are
never empty, while the temperature and humidity blocks may be. -/
theorem recs_in_dimension_order (p : SpeciesProfile) (dw df : Option Int)
    (sun temp hum : ℚ) :
    ∃ w f s t h,
      (evaluateWith p dw df sun temp hum).recs = w ++ f ++ s ++ t ++ h ∧
      (∀ x ∈ w, recDim x = 0) ∧ (∀ x ∈ f, recDim x = 1) ∧
      (∀ x ∈ s, recDim x = 2) ∧ (∀ x ∈ t, recDim x = 3) ∧
      (∀ x ∈ h, recDim x = 4) ∧ w ≠ [] ∧ f ≠ [] ∧ s ≠ [] :=
  ⟨_, _, _, _, _, rfl, waterCheck_recDim, fertCheck_recDim,
    sunCheck_recDim, tempCheck_recDim, humidityCheck_recDim,
    waterCheck_ne_nil, fertCheck_ne_nil, sunCheck_ne_nil⟩

/-- Witness for the amended C8 at the Tomato scenario values. -/
theorem recs_in_dimension_order_witness :
    ∃ w f s t h,
      (evaluateWith (lookup "Tomato") (some 5) (some 5) 6 25 50).recs =
        w ++ f ++ s ++ t ++ h ∧
      (∀ x ∈ w, recDim x = 0) ∧ (∀ x ∈ f, recDim x = 1) ∧
      (∀ x ∈ s, recDim x = 2) ∧ (∀ x ∈ t, recDim x = 3) ∧
      (∀ x ∈ h, recDim x = 4) ∧ w ≠ [] ∧ f ≠ [] ∧ s ≠ [] :=
  recs_in_dimension_order (lookup "Tomato") (some 5) (some 5) 6 25 50
